import Mathlib

/-!
Shallow embedding of `src/view/treeNodes/pullRequestNode.ts` (class `PRNode`):
the comment-thread cache synchronization, optimistic comment lifecycle,
document content provider and reaction toggling of the pull-request tree node.

Asynchronous remote calls (`pullRequestModel.getFile`, `createCommentReply`,
`deleteReviewComment`, `repository.show`, ...) are modelled as `Except`-valued
oracles passed in as parameters: `.error e` is a rejected promise / thrown
exception.  A TypeScript `try { ... await f() ... } catch` is modelled by
matching on the `Except`; a `return f()` *without* `await` inside a `try` is
modelled by returning the `Except` value directly, because in JavaScript the
rejection of a returned promise is not intercepted by the surrounding
`try`/`catch` of the async function.
-/

namespace PRNode

/-- `DiffChangeType` from `common/diffHunk` (referenced by the source). -/
inductive DiffChangeType
  | Context
  | Add
  | Delete
  | Control
deriving DecidableEq, Repr

/-- A single line of a unified diff hunk. -/
structure DiffLine where
  type : DiffChangeType
  text : String
deriving DecidableEq, Repr

/-- `DiffHunk`: an ordered sequence of diff lines. -/
structure DiffHunk where
  diffLines : List DiffLine
deriving DecidableEq, Repr

/-- `GitChangeType` from `common/file` (the statuses the source uses). -/
inductive GitChangeType
  | ADD
  | DELETE
  | MODIFY
  | RENAME
deriving DecidableEq, Repr

/-- `DiffSide` from `common/comment`. -/
inductive DiffSide
  | LEFT
  | RIGHT
deriving DecidableEq, Repr

/-- `vscode.CommentMode`. -/
inductive CommentMode
  | Preview
  | Editing
deriving DecidableEq, Repr

/-- The fields of an `IComment` (raw review comment) that the source reads:
`id`, `graphNodeId`, `body`, and draft state (a `GHPRComment`'s `label` is
set, to `'Pending'`, exactly when the underlying comment is a draft). -/
structure RawComment where
  id : Nat
  graphNodeId : String
  body : String
  isDraft : Bool
deriving DecidableEq, Repr

/-- An element of a `GHPRCommentThread`'s `comments` array: either a confirmed
`GHPRComment` wrapping a raw comment, or a locally authored, not yet confirmed
`TemporaryComment` (from `github/prComment`; its fields as used by the source:
a locally unique numeric `id`, the typed `body`, the draft flag and the
vscode comment `mode`, initially `Preview`). -/
inductive ThreadComment
  | ghpr (raw : RawComment)
  | temp (id : Nat) (body : String) (isDraft : Bool) (mode : CommentMode)
deriving DecidableEq, Repr

/-- The id of a temporary comment, `none` for a confirmed one. -/
def ThreadComment.tempId : ThreadComment → Option Nat
  | .ghpr _ => none
  | .temp i _ _ _ => some i

/-- The query parameters a `pr:` scheme uri carries (`fromPRUri`):
`fileName`, `isBase`, the two commit SHAs and the pull request number. -/
structure PRUriParams where
  fileName : String
  isBase : Bool
  baseCommit : String
  headCommit : String
  prNumber : Nat
deriving DecidableEq, Repr

/-- A file change of the pull request: `RemoteFileChangeNode` (binary or
too-large change, no hunks fetched) or `InMemFileChangeNode` (with patch,
diff hunks, partial flag and the comments attached to the file). -/
inductive FileChangeNode
  | remote (status : GitChangeType) (fileName : String)
      (previousFileName : Option String) (blobUrl : String)
  | inMem (status : GitChangeType) (fileName : String)
      (previousFileName : Option String) (blobUrl : String)
      (isPartial : Bool) (patch : String) (diffHunks : List DiffHunk)
      (comments : List RawComment)
deriving DecidableEq, Repr

def FileChangeNode.fileName : FileChangeNode → String
  | .remote _ f _ _ => f
  | .inMem _ f _ _ _ _ _ _ => f

def FileChangeNode.status : FileChangeNode → GitChangeType
  | .remote s _ _ _ => s
  | .inMem s _ _ _ _ _ _ _ => s

def FileChangeNode.previousFileName : FileChangeNode → Option String
  | .remote _ _ p _ => p
  | .inMem _ _ p _ _ _ _ _ => p

def FileChangeNode.isRemote : FileChangeNode → Bool
  | .remote _ _ _ _ => true
  | .inMem _ _ _ _ _ _ _ _ => false

def FileChangeNode.isPartial : FileChangeNode → Bool
  | .remote _ _ _ _ => false
  | .inMem _ _ _ _ p _ _ _ => p

/-- JavaScript `fileChange.previousFileName || fileChange.fileName`: the
previous name unless it is absent or the empty string (falsy). -/
def FileChangeNode.previousOrFileName (fc : FileChangeNode) : String :=
  match fc.previousFileName with
  | some p => if p == "" then fc.fileName else p
  | none => fc.fileName

/-- The hunk-replay loops of `provideDocumentContent` for ADD/DELETE status
changes (source lines 628-666): walk the hunks' lines in order; for the base
(`left`) side push the text of `Delete` and `Context` lines, for the head
(`right`) side push the text of `Add` and `Context` lines, push nothing for
`Control` lines; join the pushed lines with a newline. -/
def codeKeepLine (isBase : Bool) (diffLine : DiffLine) : Option String :=
  if isBase then
    match diffLine.type with
    | .Add => none
    | .Delete => some diffLine.text
    | .Control => none
    | .Context => some diffLine.text
  else
    match diffLine.type with
    | .Add => some diffLine.text
    | .Delete => none
    | .Control => none
    | .Context => some diffLine.text

def contentFromHunks (isBase : Bool) (diffHunks : List DiffHunk) : String :=
  String.intercalate "\n"
    ((diffHunks.map DiffHunk.diffLines).flatten.filterMap (codeKeepLine isBase))

/-- Whether a hunk line belongs to a side, in the words of the specification:
Add lines only for the head side, Delete lines only for the base side,
Context lines for both sides, Control lines for neither. -/
def specKeepLine : DiffChangeType → Bool → Bool
  | .Add, isBase => !isBase
  | .Delete, isBase => isBase
  | .Context, _ => true
  | .Control, _ => false

/-- The side content in the words of the specification: the concatenation, in
hunk order and joined with newline separators, of the hunk lines belonging to
the requested side. -/
def specSideContent (diffHunks : List DiffHunk) (isBase : Bool) : String :=
  String.intercalate "\n"
    (((diffHunks.map DiffHunk.diffLines).flatten.filter
        fun diffLine => specKeepLine diffLine.type isBase).map DiffLine.text)

/-- `provideDocumentContent` (source lines 577-688).  `getFile fileName commit`
is `pullRequestModel.getFile`, `repoShow commit path` is `repository.show`,
`getModifiedContentFromDiffHunk` is the patch-application helper of
`common/diffHunk`; each may fail.  In the remote-or-partial branch the source
writes `return this.pullRequestModel.getFile(...)` with no `await` inside a
`try`, so a rejected fetch bypasses the `catch` (which would show a warning
with an open-on-remote action and return the empty string) and propagates to
the caller; the branch is therefore the raw oracle value. -/
def provideDocumentContent (fileChanges : List FileChangeNode)
    (getFile : String → String → Except String String)
    (repoShow : String → String → Except String String)
    (getModifiedContentFromDiffHunk : String → String → String)
    (uriParams : Option PRUriParams) : Except String String :=
  match uriParams with
  | none => .ok ""
  | some params =>
    match fileChanges.find? (fun fc => fc.fileName == params.fileName) with
    | none => .ok ""
    | some fileChange =>
      if (params.isBase && fileChange.status == GitChangeType.ADD)
          || (!params.isBase && fileChange.status == GitChangeType.DELETE) then
        .ok ""
      else if fileChange.isRemote || fileChange.isPartial then
        if params.isBase then
          getFile fileChange.previousOrFileName params.baseCommit
        else
          getFile fileChange.fileName params.headCommit
      else
        match fileChange with
        | .remote _ _ _ _ => .ok ""
        | .inMem status fileName previousFileName _ _ patch diffHunks _ =>
          if status == GitChangeType.ADD || status == GitChangeType.DELETE then
            .ok (contentFromHunks params.isBase diffHunks)
          else
            let originalFileName :=
              if status == GitChangeType.RENAME then previousFileName.getD fileName
              else fileName
            match repoShow params.baseCommit originalFileName with
            | .error e => .error e
            | .ok originalContent =>
              if params.isBase then .ok originalContent
              else .ok (getModifiedContentFromDiffHunk originalContent patch)

/-- The outcomes of the remote calls a scenario performs, one `Except` per
call of `pullRequestModel` that the comment entry points issue. -/
structure RemoteOps where
  createCommentReply : Except String Unit
  createReviewThread : Except String Unit
  editReviewComment : Except String Unit
  deleteReviewComment : Except String Unit
  submitReview : Except String Unit
  deleteReview : Except String Unit
  validateDraftMode : Except String Unit
deriving Repr

/-- `optimisticallyAddComment` (source lines 718-723): append a fresh
`TemporaryComment` with the typed input to the thread's comment list.
`nextId` is the value of the temporary comment's unique id counter. -/
def optimisticallyAddComment (comments : List ThreadComment) (input : String)
    (inDraft : Bool) (nextId : Nat) : List ThreadComment :=
  comments ++ [ThreadComment.temp nextId input inDraft CommentMode.Preview]

/-- `reply` (source lines 745-753): replying reads `thread.comments[0]`; if it
is a confirmed comment the reply request is issued, otherwise the method
throws `Cannot respond to temporary comment` synchronously. -/
def replyCall (comments : List ThreadComment) (r : RemoteOps) :
    Except String Unit :=
  match comments.head? with
  | some (.ghpr _) => r.createCommentReply
  | _ => .error "Cannot respond to temporary comment"

/-- The remote call `createOrReplyComment` issues (source lines 698-704):
a reply when the thread already had comments (`hasExistingComments` is read
before the optimistic insert, the reply reads the list after it), otherwise a
new review thread creation. -/
def issuedCall (comments : List ThreadComment) (input : String)
    (inDraft : Bool) (nextId : Nat) (r : RemoteOps) : Except String Unit :=
  if comments.length != 0 then
    replyCall (optimisticallyAddComment comments input inDraft nextId) r
  else
    r.createReviewThread

/-- The `catch` of `createOrReplyComment`/`startReview`: set the mode of the
temporary comment with the given id to `Editing`, keep every comment. -/
def markFailedEditable (comments : List ThreadComment) (tempId : Nat) :
    List ThreadComment :=
  comments.map fun c =>
    match c with
    | .temp i body inDraft _ =>
      if i == tempId then ThreadComment.temp i body inDraft CommentMode.Editing
      else c
    | .ghpr _ => c

/-- `createOrReplyComment` (source lines 693-716): optimistically insert a
temporary comment, issue the remote call; on failure show one error message
and flag the temporary comment editable.  Returns the resulting comment list
and the error messages shown; the entry point never throws (the whole remote
interaction sits inside `try`/`catch`). -/
def createOrReplyComment (comments : List ThreadComment) (input : String)
    (isDraft : Bool) (nextId : Nat) (r : RemoteOps) :
    List ThreadComment × List String :=
  let cs := optimisticallyAddComment comments input isDraft nextId
  match issuedCall comments input isDraft nextId r with
  | .ok _ => (cs, [])
  | .error e => (markFailedEditable cs nextId, ["Creating comment failed: " ++ e])

/-- `optimisticallyEditComment` (source lines 725-743): swap the confirmed
comment for a `TemporaryComment` carrying its body (`!!comment.label` is the
draft flag, i.e. the raw comment's draft state). -/
def optimisticallyEditComment (comments : List ThreadComment)
    (raw : RawComment) (nextId : Nat) : List ThreadComment :=
  comments.map fun c =>
    match c with
    | .ghpr r2 =>
      if r2.id == raw.id then
        ThreadComment.temp nextId raw.body raw.isDraft CommentMode.Preview
      else c
    | .temp _ _ _ _ => c

/-- `editComment` (source lines 755-780): for a confirmed comment,
optimistically swap in a temporary comment and issue the edit; on failure show
one message and restore the original confirmed comment.  For a temporary
comment, delegate to `createOrReplyComment` with the comment's body
(`hasPendingReview` resolves the unspecified draft flag). -/
def editComment (comments : List ThreadComment) (target : ThreadComment)
    (hasPendingReview : Bool) (nextId : Nat) (r : RemoteOps) :
    List ThreadComment × List String :=
  match target with
  | .ghpr raw =>
    let cs := optimisticallyEditComment comments raw nextId
    match r.editReviewComment with
    | .ok _ => (cs, [])
    | .error e =>
      (cs.map fun c =>
        match c with
        | .temp i _ _ _ => if i == nextId then ThreadComment.ghpr raw else c
        | .ghpr _ => c,
       ["Editing comment failed " ++ e])
  | .temp _ body _ _ =>
    createOrReplyComment comments body hasPendingReview nextId r

/-- The local branch of `deleteComment` (source line 786), exactly as written:
`thread.comments = thread.comments.filter(c => c instanceof TemporaryComment
&& c.id === comment.id)` — it KEEPS the comments that are temporary and have
the deleted comment's id. -/
def deleteCommentLocal (comments : List ThreadComment) (tempId : Nat) :
    List ThreadComment :=
  comments.filter fun c =>
    match c with
    | .temp i _ _ _ => i == tempId
    | .ghpr _ => false

/-- Deleting an unconfirmed comment in the words of the specification: remove
exactly the matching temporary entry, keep all other comments. -/
def specDeleteTemporary (comments : List ThreadComment) (tempId : Nat) :
    List ThreadComment :=
  comments.filter fun c =>
    match c with
    | .temp i _ _ _ => !(i == tempId)
    | .ghpr _ => true

/-- `deleteComment` (source lines 782-790): a confirmed comment issues a
remote delete (no `try`/`catch` — a failure propagates to the caller); a
temporary comment is handled locally via the filter above; afterwards
`validateDraftMode` is awaited (also uncaught). -/
def deleteComment (comments : List ThreadComment) (target : ThreadComment)
    (r : RemoteOps) : Except String (List ThreadComment × List String) :=
  match target with
  | .ghpr _ =>
    match r.deleteReviewComment with
    | .error e => .error e
    | .ok _ =>
      match r.validateDraftMode with
      | .error e => .error e
      | .ok _ => .ok (comments, [])
  | .temp i _ _ _ =>
    let cs := deleteCommentLocal comments i
    match r.validateDraftMode with
    | .error e => .error e
    | .ok _ => .ok (cs, [])

/-- `startReview` (source lines 799-822): as `createOrReplyComment` but always
a draft and always a new review thread creation; on failure show one message
and flag the temporary comment editable. -/
def startReview (comments : List ThreadComment) (input : String)
    (nextId : Nat) (r : RemoteOps) : List ThreadComment × List String :=
  let cs := optimisticallyAddComment comments input true nextId
  match r.createReviewThread with
  | .ok _ => (cs, [])
  | .error e => (markFailedEditable cs nextId, ["Starting a review failed: " ++ e])

/-- `finishReview` (source lines 824-832): post a non-draft reply via
`createOrReplyComment` (which never throws), then submit the review; an
exception of the submission is caught and shown as one message; the comment
list stays as the reply step left it. -/
def finishReview (comments : List ThreadComment) (input : String)
    (nextId : Nat) (r : RemoteOps) : List ThreadComment × List String :=
  let inner := createOrReplyComment comments input false nextId r
  match r.submitReview with
  | .ok _ => inner
  | .error e => (inner.1, inner.2 ++ ["Failed to submit the review: " ++ e])

/-- `deleteReview` (source lines 834-837): withdraw the pending review; no
`try`/`catch`, so a failure propagates to the caller. -/
def deleteReview (r : RemoteOps) : Except String (List String) :=
  match r.deleteReview with
  | .error e => .error e
  | .ok _ => .ok []

/-- A vscode comment reaction as the source reads it: `label` and
`authorHasReacted`. -/
structure CommentReaction where
  label : String
  authorHasReacted : Bool
deriving DecidableEq, Repr

/-- A GraphQL `ReactionGroup` of the add/remove reaction response. -/
structure ReactionGroup where
  content : String
  viewerHasReacted : Bool
deriving DecidableEq, Repr

/-- Which reaction request `toggleReaction` issues. -/
inductive ReactionRequest
  | add
  | remove
deriving DecidableEq, Repr

/-- The branch condition of `toggleReaction` (source lines 861-871):
`comment.reactions && !comment.reactions.find(ret => ret.label ===
reaction.label && !!ret.authorHasReacted)` — add when a reaction array is
present (an empty array is truthy) and holds no self-authored reaction with
the same label; otherwise (including when `reactions` is undefined) remove. -/
def toggleReactionRequest (reactions : Option (List CommentReaction))
    (label : String) : ReactionRequest :=
  match reactions with
  | some rs =>
    if (rs.find? fun ret => ret.label == label && ret.authorHasReacted).isNone
    then ReactionRequest.add
    else ReactionRequest.remove
  | none => ReactionRequest.remove

/-- The reaction part of `toggleReaction` (source lines 860-874): issue the
request chosen by `toggleReactionRequest`, then replace the comment's local
reaction list with `parseGraphQLReaction` of the response's full
reaction-group list (`remote` maps the issued request to the response's
`reactionGroups`; `parse` is `parseGraphQLReaction` of `github/utils`).
Returns the issued request and the comment's resulting reaction list. -/
def toggleReaction (reactions : Option (List CommentReaction)) (label : String)
    (remote : ReactionRequest → List ReactionGroup)
    (parse : List ReactionGroup → List CommentReaction) :
    ReactionRequest × List CommentReaction :=
  let req := toggleReactionRequest reactions label
  (req, parse (remote req))

/-- An open `pr:` scheme editor of this pull request, reduced to the uri
parameters the synchronization code reads: `fileName` and `isBase`. -/
structure Editor where
  fileName : String
  isBase : Bool
deriving DecidableEq, Repr

/-- A remote-sourced review thread (`IReviewThread`), the fields the source
reads: `id`, `path`, 1-based `line`, `diffSide`, `isOutdated`, `isResolved`
and the raw comments. -/
structure ReviewThread where
  id : String
  path : String
  line : Nat
  diffSide : DiffSide
  isOutdated : Bool
  isResolved : Bool
  comments : List RawComment
deriving DecidableEq, Repr

/-- A live `GHPRCommentThread` created by
`createVSCodeCommentThreadForReviewThread` (from `github/utils`, modelled
from the spec's thread-display primitives): a view-host handle carrying the
review thread's id, path, 0-based display line (`thread.line - 1`),
resolution flag and materialized comments.  `handle` is the identity of the
view-host object; it stays registered with the view host until disposed. -/
structure DisplayThread where
  handle : Nat
  threadId : String
  path : String
  line : Nat
  isResolved : Bool
  comments : List RawComment
deriving DecidableEq, Repr

/-- The synchronization state: `commentThreadCache` (a JavaScript object
keyed by file name, a missing key reads as `undefined`, i.e. `none`), the
fresh-handle counter, every display thread ever created (registered with the
view host) and the handles already disposed. -/
structure SyncState where
  cache : String → Option (List DisplayThread)
  nextHandle : Nat
  createdThreads : List DisplayThread
  disposedHandles : List Nat

/-- The display threads currently live in the view host: created and not
disposed. -/
def liveThreads (st : SyncState) : List DisplayThread :=
  st.createdThreads.filter fun t => !(st.disposedHandles.contains t.handle)

/-- `createVSCodeCommentThreadForReviewThread`: register a new display thread
for the review thread (at display line `thread.line - 1`) with the view host
and return it. -/
def createThread (st : SyncState) (thread : ReviewThread) :
    DisplayThread × SyncState :=
  let t : DisplayThread :=
    { handle := st.nextHandle, threadId := thread.id, path := thread.path,
      line := thread.line - 1, isResolved := thread.isResolved,
      comments := thread.comments }
  (t, { st with nextHandle := st.nextHandle + 1,
                createdThreads := st.createdThreads ++ [t] })

/-- The side filter of the thread initialization (source lines 315-318):
a LEFT thread matches a base editor, a RIGHT thread a head editor. -/
def sideMatches (thread : ReviewThread) (isBase : Bool) : Bool :=
  (thread.diffSide == DiffSide.LEFT && isBase)
    || (thread.diffSide == DiffSide.RIGHT && !isBase)

/-- Create display threads for a list of review threads in order (the `map`
over `createVSCodeCommentThreadForReviewThread` calls). -/
def createThreadsFor (st : SyncState) (threads : List ReviewThread) :
    List DisplayThread × SyncState :=
  threads.foldl
    (fun acc thread =>
      let (t, st2) := createThread acc.2 thread
      (acc.1 ++ [t], st2))
    ([], st)

/-- `initializeThreadsInOpenEditors` (source lines 303-335): for every open
PR editor whose file has review threads (`threadsByPath[fileName]`), filter
them to the editor's diff side, create a display thread for each, and assign
the resulting list to `commentThreadCache[fileName]`.  The previous cache
entry for that file, if any, is overwritten without being disposed (the
declared `_hasInitializedThreads` guard field of the class is never used). -/
def initializeThreadsInOpenEditors (st : SyncState)
    (reviewThreads : List ReviewThread) (prEditors : List Editor) : SyncState :=
  prEditors.foldl
    (fun acc editor =>
      let threadsForPath := reviewThreads.filter fun t => t.path == editor.fileName
      if threadsForPath.isEmpty then acc
      else
        let (dts, st2) :=
          createThreadsFor acc (threadsForPath.filter fun t => sideMatches t editor.isBase)
        { st2 with cache := fun k =>
            if k == editor.fileName then some dts else st2.cache k })
    st

/-- The `e.added` handler of `onDidChangeReviewThreads` (source lines
383-410): skip outdated threads; otherwise look for an open PR editor whose
file name matches the thread's path (`path.relative` against the repository
root is the identity here, paths being modelled root-relative); if one is
open, create a display thread for it — the created thread is returned from
the `forEach` callback and discarded, so the cache is NOT updated. -/
def handleAddedThread (st : SyncState) (openEditors : List Editor)
    (thread : ReviewThread) : SyncState :=
  if thread.isOutdated then st
  else
    match openEditors.find? (fun editor => editor.fileName == thread.path) with
    | none => st
    | some _ => (createThread st thread).2

/-- Replace the first display thread with the given id by a copy carrying the
review thread's resolution flag and freshly materialized comments (the
`findIndex` plus in-place assignment of the `e.changed` handler). -/
def updateFirstMatching (tid : String) (rt : ReviewThread) :
    List DisplayThread → List DisplayThread
  | [] => []
  | t :: ts =>
    if t.threadId == tid then
      { t with isResolved := rt.isResolved, comments := rt.comments } :: ts
    else t :: updateFirstMatching tid rt ts

/-- The `e.changed` handler (source lines 412-420):
`commentThreadCache[thread.path].findIndex(...)` — when the cache has no
entry for the path this reads `findIndex` of `undefined` and throws a
`TypeError`; when the index is found, the matching display thread's
resolution flag and comment list are reassigned in place. -/
def handleChangedThread (st : SyncState) (thread : ReviewThread) :
    Except String SyncState :=
  match st.cache thread.path with
  | none => .error "TypeError: commentThreadCache[thread.path] is undefined"
  | some threads =>
    if threads.any (fun t => t.threadId == thread.id) then
      .ok { st with cache := fun k =>
              if k == thread.path then some (updateFirstMatching thread.id thread threads)
              else st.cache k }
    else .ok st

/-- Remove the first display thread with the given id, returning it and the
remaining list (the `findIndex` plus `splice(index, 1)` of the `e.removed`
handler). -/
def spliceFirst (tid : String) :
    List DisplayThread → Option (DisplayThread × List DisplayThread)
  | [] => none
  | t :: ts =>
    if t.threadId == tid then some (t, ts)
    else (spliceFirst tid ts).map fun x => (x.1, t :: x.2)

/-- The `e.removed` handler (source lines 422-429): as for `changed`, a
missing cache entry for the path throws a `TypeError` (the callback being
`async`, in JavaScript it surfaces as an unhandled promise rejection); when
the thread is found it is spliced out of the cache list and disposed. -/
def handleRemovedThread (st : SyncState) (thread : ReviewThread) :
    Except String SyncState :=
  match st.cache thread.path with
  | none => .error "TypeError: commentThreadCache[thread.path] is undefined"
  | some threads =>
    match spliceFirst thread.id threads with
    | none => .ok st
    | some (t, rest) =>
      .ok { st with
              cache := fun k => if k == thread.path then some rest else st.cache k,
              disposedHandles := st.disposedHandles ++ [t.handle] }

/-- A `ReviewThreadChangeEvent`. -/
structure ReviewThreadChangeEvent where
  added : List ReviewThread
  changed : List ReviewThread
  removed : List ReviewThread

/-- `onDidChangeReviewThreads` (source lines 381-430): process the added,
then the changed, then the removed threads of the event. -/
def onDidChangeReviewThreads (st : SyncState) (openEditors : List Editor)
    (e : ReviewThreadChangeEvent) : Except String SyncState := do
  let st1 := e.added.foldl (fun acc t => handleAddedThread acc openEditors t) st
  let st2 ← e.changed.foldlM handleChangedThread st1
  e.removed.foldlM handleRemovedThread st2

/-! ## Claims -/

/-- C1: the claim says `deleteComment` on a temporary comment removes exactly
the matching temporary entry and keeps all other comments.  The source's
filter (line 786) keeps the comments that ARE the matching temporary one and
drops everything else: on a thread holding a confirmed comment and the
temporary comment being deleted, the code yields the temporary comment alone
while the claimed behaviour yields the confirmed comment alone. -/
theorem claimC1_code_bug :
    deleteCommentLocal
        [ThreadComment.ghpr { id := 1, graphNodeId := "g1", body := "keep me", isDraft := false },
         ThreadComment.temp 7 "typed text" false CommentMode.Preview] 7
      = [ThreadComment.temp 7 "typed text" false CommentMode.Preview]
  ∧ specDeleteTemporary
        [ThreadComment.ghpr { id := 1, graphNodeId := "g1", body := "keep me", isDraft := false },
         ThreadComment.temp 7 "typed text" false CommentMode.Preview] 7
      = [ThreadComment.ghpr { id := 1, graphNodeId := "g1", body := "keep me", isDraft := false }] :=
  ⟨rfl, rfl⟩

/-- C2: the claim says a remote thread-removed event whose thread has no
matching display thread is a no-op even when the cache holds no entry at all
for the thread's path.  The source (line 423) reads
`commentThreadCache[thread.path].findIndex(...)` unconditionally, so with an
empty cache the event handler raises a TypeError instead of being a no-op. -/
theorem claimC2_code_bug :
    onDidChangeReviewThreads
        { cache := fun _ => none, nextHandle := 0, createdThreads := [], disposedHandles := [] }
        []
        { added := [], changed := [],
          removed := [{ id := "t1", path := "a.txt", line := 3, diffSide := DiffSide.RIGHT,
                        isOutdated := false, isResolved := false, comments := [] }] }
      = .error "TypeError: commentThreadCache[thread.path] is undefined" :=
  rfl

/-- C5: the claim says that for a remote-only (or partial) file change a
failing remote file fetch makes `provideDocumentContent` return the empty
string.  The source returns the `getFile` promise from inside the `try`
without `await` (lines 601-606), so the rejection bypasses the `catch` and
propagates to the caller: on a remote MODIFY change with a failing fetch the
call yields the error, not `.ok ""`. -/
theorem claimC5_code_bug :
    provideDocumentContent
        [FileChangeNode.remote GitChangeType.MODIFY "a.txt" none "https://example.com/blob"]
        (fun _ _ => .error "fetch failed")
        (fun _ _ => .ok "")
        (fun originalContent _ => originalContent)
        (some { fileName := "a.txt", isBase := false, baseCommit := "base",
                headCommit := "head", prNumber := 1 })
      = .error "fetch failed" :=
  rfl

/-- C10: a uri that does not parse as a PR document uri (`fromPRUri` yields
nothing), or one whose file has no matching file change, makes
`provideDocumentContent` return the empty string without failing; the result
holds for every fetch oracle, i.e. no remote fetch influences it. -/
theorem claimC10_confirmed (fileChanges : List FileChangeNode)
    (getFile repoShow : String → String → Except String String)
    (getModifiedContentFromDiffHunk : String → String → String) (p : PRUriParams)
    (hnone : fileChanges.find? (fun fc => fc.fileName == p.fileName) = none) :
    provideDocumentContent fileChanges getFile repoShow getModifiedContentFromDiffHunk none
      = .ok ""
  ∧ provideDocumentContent fileChanges getFile repoShow getModifiedContentFromDiffHunk (some p)
      = .ok "" := by
  constructor
  · rfl
  · simp only [provideDocumentContent, hnone]

/-- Witness for C10 at a concrete file list and uri whose file name matches
no file change, with oracles that would fail if consulted. -/
theorem claimC10_witness :
    provideDocumentContent
        [FileChangeNode.remote GitChangeType.MODIFY "a.txt" none "u"]
        (fun _ _ => .error "must not be called") (fun _ _ => .error "must not be called")
        (fun originalContent _ => originalContent)
        (some { fileName := "other.txt", isBase := true, baseCommit := "b",
                headCommit := "h", prNumber := 1 })
      = .ok "" :=
  (claimC10_confirmed _ _ _ _ _ (by rfl)).2

/-- C6 counterexample: on a comment whose `reactions` field is undefined the
source's truthiness test sends the call to the remove branch, although the
comment's current reaction list (empty) contains no self-authored reaction
with the label, for which the claim demands an add request. -/
theorem claimC6_counterexample :
    toggleReactionRequest none "THUMBS_UP" = ReactionRequest.remove
  ∧ (((none : Option (List CommentReaction)).getD []).find? fun ret =>
        ret.label == "THUMBS_UP" && ret.authorHasReacted) = none
  ∧ ReactionRequest.remove ≠ ReactionRequest.add := by
  refine ⟨rfl, rfl, ?_⟩
  intro h
  exact ReactionRequest.noConfusion h

/-- C6 amended: for a comment that carries a reaction list, an add request is
issued iff the list holds no self-authored reaction with the same label
(otherwise a remove request), and the comment's resulting local reaction list
is exactly the parse of the reaction-group list of the remote response —
independent of the previous list (last-write-wins, not a merge). -/
theorem claimC6_amended (rs : List CommentReaction) (label : String)
    (remote : ReactionRequest → List ReactionGroup)
    (parse : List ReactionGroup → List CommentReaction) :
    (toggleReactionRequest (some rs) label = ReactionRequest.add
       ↔ (rs.find? fun ret => ret.label == label && ret.authorHasReacted) = none)
  ∧ (toggleReaction (some rs) label remote parse).2
      = parse (remote (toggleReactionRequest (some rs) label)) := by
  constructor
  · unfold toggleReactionRequest
    rcases h : rs.find? fun ret => ret.label == label && ret.authorHasReacted with _ | r
    · simp [h]
    · simp [h]
  · rfl

/-- Flagging a failed temporary comment editable leaves a comment list
without that id unchanged. -/
theorem markFailedEditable_of_fresh (comments : List ThreadComment) (nextId : Nat)
    (hfresh : ∀ c ∈ comments, c.tempId ≠ some nextId) :
    markFailedEditable comments nextId = comments := by
  induction comments with
  | nil => rfl
  | cons c cs ih =>
    have hc := hfresh c (List.mem_cons_self c cs)
    have hcs := ih fun x hx => hfresh x (List.mem_cons_of_mem c hx)
    cases c with
    | ghpr raw => simp [markFailedEditable] at hcs ⊢; exact hcs
    | temp i body inDraft mode =>
      have : ¬(i = nextId) := fun h => hc (by simp [ThreadComment.tempId, h])
      simp [markFailedEditable, this] at hcs ⊢
      exact hcs

/-- C3: when the remote call issued by `createOrReplyComment` fails, the
optimistically inserted temporary comment stays in the thread's list with its
mode set to `Editing` and its body verbatim, every pre-existing comment is
kept, and exactly one error message is shown (`nextId` being the fresh
counter value, no existing comment carries it). -/
theorem claimC3_confirmed (comments : List ThreadComment) (input : String)
    (isDraft : Bool) (nextId : Nat) (r : RemoteOps) (e : String)
    (hfresh : ∀ c ∈ comments, c.tempId ≠ some nextId)
    (hfail : issuedCall comments input isDraft nextId r = .error e) :
    createOrReplyComment comments input isDraft nextId r
      = (comments ++ [ThreadComment.temp nextId input isDraft CommentMode.Editing],
         ["Creating comment failed: " ++ e]) := by
  unfold createOrReplyComment
  rw [hfail]
  unfold optimisticallyAddComment
  show (markFailedEditable
          (comments ++ [ThreadComment.temp nextId input isDraft CommentMode.Preview]) nextId,
        ["Creating comment failed: " ++ e]) = _
  have hsplit :
      markFailedEditable
          (comments ++ [ThreadComment.temp nextId input isDraft CommentMode.Preview]) nextId
        = markFailedEditable comments nextId
            ++ markFailedEditable [ThreadComment.temp nextId input isDraft CommentMode.Preview] nextId := by
    unfold markFailedEditable
    exact List.map_append _ _ _
  rw [hsplit, markFailedEditable_of_fresh comments nextId hfresh]
  simp [markFailedEditable]

/-- Witness for C3: an empty thread, so the issued call is the review-thread
creation, which fails. -/
theorem claimC3_witness :
    createOrReplyComment [] "hello world" false 5
        { createCommentReply := .ok (), createReviewThread := .error "boom",
          editReviewComment := .ok (), deleteReviewComment := .ok (),
          submitReview := .ok (), deleteReview := .ok (), validateDraftMode := .ok () }
      = ([ThreadComment.temp 5 "hello world" false CommentMode.Editing],
         ["Creating comment failed: boom"]) :=
  claimC3_confirmed [] "hello world" false 5 _ "boom" (by simp) (by rfl)

/-- The code's per-line selection agrees pointwise with the specification's
side membership. -/
theorem codeKeepLine_eq_spec (isBase : Bool) (dl : DiffLine) :
    codeKeepLine isBase dl
      = if specKeepLine dl.type isBase then some dl.text else none := by
  cases h : dl.type <;> cases isBase <;> simp [codeKeepLine, specKeepLine, h]

/-- Keeping lines through a boolean guard is filtering then projecting. -/
theorem filterMap_guard (p : DiffLine → Bool) (ls : List DiffLine) :
    ls.filterMap (fun dl => if p dl then some dl.text else none)
      = (ls.filter p).map DiffLine.text := by
  induction ls with
  | nil => rfl
  | cons dl ls ih =>
    by_cases h : p dl <;> simp [List.filterMap_cons, List.filter_cons, h, ih]

/-- The code's hunk-replay loops compute exactly the specification's
side-filtered concatenation. -/
theorem contentFromHunks_eq_spec (isBase : Bool) (diffHunks : List DiffHunk) :
    contentFromHunks isBase diffHunks = specSideContent diffHunks isBase := by
  unfold contentFromHunks specSideContent
  congr 1
  have hfun : codeKeepLine isBase
      = fun dl => if specKeepLine dl.type isBase then some dl.text else none :=
    funext fun dl => codeKeepLine_eq_spec isBase dl
  rw [hfun, filterMap_guard]

/-- The data invariant of ADD/DELETE diffs the spec states ("ADD/DELETE hunks
contain the entirety of one side"): an ADD change's hunks consist of Add and
Control lines only, a DELETE change's of Delete and Control lines only. -/
def hunksPureForStatus (status : GitChangeType) (diffHunks : List DiffHunk) : Prop :=
  ∀ dl ∈ (diffHunks.map DiffHunk.diffLines).flatten,
    (status = GitChangeType.ADD →
      dl.type = DiffChangeType.Add ∨ dl.type = DiffChangeType.Control)
    ∧ (status = GitChangeType.DELETE →
      dl.type = DiffChangeType.Delete ∨ dl.type = DiffChangeType.Control)

/-- A side none of whose lines is kept yields the empty string. -/
theorem specSideContent_eq_empty (diffHunks : List DiffHunk) (isBase : Bool)
    (h : ∀ dl ∈ (diffHunks.map DiffHunk.diffLines).flatten,
        specKeepLine dl.type isBase = false) :
    specSideContent diffHunks isBase = "" := by
  unfold specSideContent
  rw [List.filter_eq_nil_iff.mpr (fun dl hdl => by simp [h dl hdl])]
  rfl

/-- C4: for an ADD- or DELETE-status file change whose full hunk set is local
(not partial), `provideDocumentContent` returns for each side exactly the
concatenation, in hunk order joined with newlines, of the hunk lines
belonging to that side (Add lines only for head, Delete lines only for base,
Context lines for both, Control lines dropped).  The hypothesis `hpure` is
the spec's stated ADD/DELETE hunk invariant, under which the guard that
returns the empty string for the nonexistent side agrees with the filter. -/
theorem claimC4_confirmed (fileChanges : List FileChangeNode)
    (getFile repoShow : String → String → Except String String)
    (getModifiedContentFromDiffHunk : String → String → String) (p : PRUriParams)
    (status : GitChangeType) (fileName : String) (previousFileName : Option String)
    (blobUrl patch : String) (diffHunks : List DiffHunk) (comments : List RawComment)
    (hfind : fileChanges.find? (fun fc => fc.fileName == p.fileName)
        = some (FileChangeNode.inMem status fileName previousFileName blobUrl
                  false patch diffHunks comments))
    (hstatus : status = GitChangeType.ADD ∨ status = GitChangeType.DELETE)
    (hpure : hunksPureForStatus status diffHunks) :
    provideDocumentContent fileChanges getFile repoShow getModifiedContentFromDiffHunk (some p)
      = .ok (specSideContent diffHunks p.isBase) := by
  have hcode := contentFromHunks_eq_spec p.isBase diffHunks
  rcases hstatus with hA | hD
  · subst hA
    cases hb : p.isBase with
    | true =>
      have hempty : specSideContent diffHunks true = "" :=
        specSideContent_eq_empty _ _ fun dl hdl => by
          rcases (hpure dl hdl).1 rfl with h | h <;> simp [specKeepLine, h]
      simp [provideDocumentContent, hfind, FileChangeNode.status, hb, hempty]
    | false =>
      simp [provideDocumentContent, hfind, FileChangeNode.status, FileChangeNode.isRemote,
            FileChangeNode.isPartial, hb]
      rw [← hb, hcode]
  · subst hD
    cases hb : p.isBase with
    | true =>
      simp [provideDocumentContent, hfind, FileChangeNode.status, FileChangeNode.isRemote,
            FileChangeNode.isPartial, hb]
      rw [← hb, hcode]
    | false =>
      have hempty : specSideContent diffHunks false = "" :=
        specSideContent_eq_empty _ _ fun dl hdl => by
          rcases (hpure dl hdl).2 rfl with h | h <;> simp [specKeepLine, h]
      simp [provideDocumentContent, hfind, FileChangeNode.status, hb, hempty]

/-- Witness for C4: a two-line added file; the head side replays the two Add
lines, the Control header is dropped. -/
theorem claimC4_witness :
    provideDocumentContent
        [FileChangeNode.inMem GitChangeType.ADD "a.txt" none "u" false ""
           [{ diffLines := [{ type := DiffChangeType.Control, text := "@@ -0,0 +1,2 @@" },
                            { type := DiffChangeType.Add, text := "line one" },
                            { type := DiffChangeType.Add, text := "line two" }] }] []]
        (fun _ _ => .error "must not be called") (fun _ _ => .error "must not be called")
        (fun originalContent _ => originalContent)
        (some { fileName := "a.txt", isBase := false, baseCommit := "b",
                headCommit := "h", prNumber := 1 })
      = .ok (specSideContent
          [{ diffLines := [{ type := DiffChangeType.Control, text := "@@ -0,0 +1,2 @@" },
                           { type := DiffChangeType.Add, text := "line one" },
                           { type := DiffChangeType.Add, text := "line two" }] }] false) :=
  claimC4_confirmed _ _ _ _ _ _ _ _ _ _ _ _ (by rfl) (Or.inl rfl) (by unfold hunksPureForStatus; decide)

/-- A fresh synchronization state: empty cache, nothing created. -/
def emptySyncState : SyncState :=
  { cache := fun _ => none, nextHandle := 0, createdThreads := [], disposedHandles := [] }

/-- A non-outdated RIGHT-side review thread on `a.txt`, line 3. -/
def rtOne : ReviewThread :=
  { id := "t1", path := "a.txt", line := 3, diffSide := DiffSide.RIGHT,
    isOutdated := false, isResolved := false, comments := [] }

/-- An open head-side PR editor showing `a.txt`. -/
def edHead : Editor := { fileName := "a.txt", isBase := false }

/-- C7: the claim says re-running thread initialization for an open document
never leaves two live display threads for one review thread id.  The source's
`initializeThreadsInOpenEditors` (called on every tree refresh from
`getChildren`) overwrites `commentThreadCache[fileName]` with freshly created
threads and never disposes the previous ones (the `_hasInitializedThreads`
field meant to guard this is declared but never used): after two
initializations with one open editor and one review thread, two display
threads for `t1` are live in the view host. -/
theorem claimC7_code_bug :
    ((liveThreads
        (initializeThreadsInOpenEditors
          (initializeThreadsInOpenEditors emptySyncState [rtOne] [edHead])
          [rtOne] [edHead])).filter fun t => t.threadId == "t1").length = 2
  ∧ ((liveThreads
        (initializeThreadsInOpenEditors emptySyncState [rtOne] [edHead])).filter
          fun t => t.threadId == "t1").length = 1 := by
  constructor <;> rfl

/-- C8 counterexample: `deleteComment` on a confirmed comment has no
`try`/`catch` (source line 784), so a failing remote delete is thrown out of
the public entry point to its caller instead of surfacing as a message. -/
theorem claimC8_counterexample :
    deleteComment []
        (ThreadComment.ghpr { id := 1, graphNodeId := "g1", body := "b", isDraft := false })
        { createCommentReply := .ok (), createReviewThread := .ok (),
          editReviewComment := .ok (), deleteReviewComment := .error "remote delete failed",
          submitReview := .ok (), deleteReview := .ok (), validateDraftMode := .ok () }
      = .error "remote delete failed" :=
  rfl

/-- C8 amended: `createOrReplyComment`, `editComment`, `startReview` and
`finishReview` surface a remote failure as a single user-facing message
identifying the failed action and never throw (they are total, message-
returning functions); `deleteComment` on a confirmed comment and
`deleteReview`, however, propagate the remote failure to their caller with no
message. -/
theorem claimC8_amended (comments : List ThreadComment) (raw : RawComment)
    (input : String) (isDraft hasPendingReview : Bool) (nextId : Nat)
    (r : RemoteOps) (e : String) :
    (issuedCall comments input isDraft nextId r = .error e →
      (createOrReplyComment comments input isDraft nextId r).2
        = ["Creating comment failed: " ++ e])
  ∧ (r.editReviewComment = .error e →
      (editComment comments (ThreadComment.ghpr raw) hasPendingReview nextId r).2
        = ["Editing comment failed " ++ e])
  ∧ (r.createReviewThread = .error e →
      (startReview comments input nextId r).2 = ["Starting a review failed: " ++ e])
  ∧ (issuedCall comments input false nextId r = .ok () → r.submitReview = .error e →
      (finishReview comments input nextId r).2 = ["Failed to submit the review: " ++ e])
  ∧ (r.deleteReviewComment = .error e →
      deleteComment comments (ThreadComment.ghpr raw) r = .error e)
  ∧ (r.deleteReview = .error e → deleteReview r = .error e) := by
  refine ⟨?_, ?_, ?_, ?_, ?_, ?_⟩
  · intro h
    simp [createOrReplyComment, h]
  · intro h
    simp [editComment, h]
  · intro h
    simp [startReview, h]
  · intro hok h
    simp [finishReview, createOrReplyComment, hok, h]
  · intro h
    simp [deleteComment, h]
  · intro h
    simp [deleteReview, h]

/-- Witness for C8 at concrete inputs: a failing review-thread creation
yields exactly the creation message, and a failing review deletion escapes
`deleteReview`. -/
theorem claimC8_witness :
    (createOrReplyComment [] "hi" false 3
        { createCommentReply := .ok (), createReviewThread := .error "boom",
          editReviewComment := .ok (), deleteReviewComment := .ok (),
          submitReview := .ok (), deleteReview := .error "boom",
          validateDraftMode := .ok () }).2
      = ["Creating comment failed: boom"]
  ∧ deleteReview
        { createCommentReply := .ok (), createReviewThread := .error "boom",
          editReviewComment := .ok (), deleteReviewComment := .ok (),
          submitReview := .ok (), deleteReview := .error "boom",
          validateDraftMode := .ok () }
      = .error "boom" :=
  ⟨(claimC8_amended [] { id := 1, graphNodeId := "g", body := "b", isDraft := false }
      "hi" false false 3 _ "boom").1 (by rfl),
   (claimC8_amended [] { id := 1, graphNodeId := "g", body := "b", isDraft := false }
      "hi" false false 3 _ "boom").2.2.2.2.2 (by rfl)⟩

/-- A display thread already converged with `rtOne` (display line 2 = 3-1). -/
def dtOne : DisplayThread :=
  { handle := 0, threadId := "t1", path := "a.txt", line := 2,
    isResolved := false, comments := [] }

/-- A state converged with `rtOne` for the open editor `edHead`: the display
thread `dtOne` is cached under `a.txt` and live. -/
def convergedState : SyncState :=
  { cache := fun k => if k == "a.txt" then some [dtOne] else none,
    nextHandle := 1, createdThreads := [dtOne], disposedHandles := [] }

/-- C9 counterexample: replaying an already-processed `added` event against a
converged cache is not idempotent — the `e.added` handler (source lines
383-410) performs no duplicate check, creates a second display thread for the
already-displayed review thread and discards it without caching it, so the
set of live display threads grows from one to two. -/
theorem claimC9_counterexample :
    (onDidChangeReviewThreads convergedState [edHead]
        { added := [rtOne], changed := [], removed := [] }).map
        (fun st => (liveThreads st).length)
      = .ok 2
  ∧ (liveThreads convergedState).length = 1 :=
  ⟨rfl, rfl⟩

/-- Updating the first matching display thread with already-converged values
changes nothing. -/
theorem updateFirstMatching_eq_self (tid : String) (rt : ReviewThread)
    (threads : List DisplayThread)
    (hconv : ∀ t ∈ threads, t.threadId = tid →
        t.isResolved = rt.isResolved ∧ t.comments = rt.comments) :
    updateFirstMatching tid rt threads = threads := by
  induction threads with
  | nil => rfl
  | cons t ts ih =>
    unfold updateFirstMatching
    by_cases h : (t.threadId == tid) = true
    · obtain ⟨h1, h2⟩ := hconv t (List.mem_cons_self t ts) (eq_of_beq h)
      rw [if_pos h]
      cases t
      simp_all
    · rw [if_neg h]
      rw [ih fun x hx => hconv x (List.mem_cons_of_mem t hx)]

/-- Splicing out a thread id that no cached display thread carries finds
nothing. -/
theorem spliceFirst_eq_none (tid : String) (threads : List DisplayThread)
    (hgone : ∀ t ∈ threads, ¬(t.threadId = tid)) :
    spliceFirst tid threads = none := by
  induction threads with
  | nil => rfl
  | cons t ts ih =>
    unfold spliceFirst
    have h : ¬((t.threadId == tid) = true) := by
      simp [hgone t (List.mem_cons_self t ts)]
    rw [if_neg h, ih fun x hx => hgone x (List.mem_cons_of_mem t hx)]
    rfl

/-- A `changed` event whose display thread already carries the event's
resolution flag and comments is a no-op. -/
theorem handleChangedThread_converged (st : SyncState) (thread : ReviewThread)
    (threads : List DisplayThread)
    (hcache : st.cache thread.path = some threads)
    (hconv : ∀ t ∈ threads, t.threadId = thread.id →
        t.isResolved = thread.isResolved ∧ t.comments = thread.comments) :
    handleChangedThread st thread = .ok st := by
  unfold handleChangedThread
  simp only [hcache]
  by_cases hany : (threads.any fun t => t.threadId == thread.id) = true
  · rw [if_pos hany]
    congr 1
    have hupd := updateFirstMatching_eq_self thread.id thread threads hconv
    have hfun : (fun k =>
        if k == thread.path then some (updateFirstMatching thread.id thread threads)
        else st.cache k) = st.cache := by
      funext k
      rw [hupd]
      by_cases hk : (k == thread.path) = true
      · rw [if_pos hk, eq_of_beq hk, hcache]
      · rw [if_neg hk]
    rw [hfun]
  · rw [if_neg hany]

/-- A `removed` event whose thread is already absent from the cached list of
its path is a no-op. -/
theorem handleRemovedThread_gone (st : SyncState) (thread : ReviewThread)
    (threads : List DisplayThread)
    (hcache : st.cache thread.path = some threads)
    (hgone : ∀ t ∈ threads, ¬(t.threadId = thread.id)) :
    handleRemovedThread st thread = .ok st := by
  unfold handleRemovedThread
  simp only [hcache]
  rw [spliceFirst_eq_none thread.id threads hgone]

/-- C9 amended: replaying an already-processed `changed` or `removed` event
against a converged cache is idempotent, provided the cache holds an entry
list for the thread's path (without one, both handlers raise a TypeError —
see C2 — and replaying an `added` event is not idempotent — see the
counterexample).  A converged `changed` replay finds the display thread
already carrying the event's values; a converged `removed` replay finds no
display thread with the id. -/
theorem claimC9_amended (st : SyncState) (openEditors : List Editor)
    (thread : ReviewThread) (threads : List DisplayThread)
    (hcache : st.cache thread.path = some threads) :
    ((∀ t ∈ threads, t.threadId = thread.id →
        t.isResolved = thread.isResolved ∧ t.comments = thread.comments) →
      onDidChangeReviewThreads st openEditors
          { added := [], changed := [thread], removed := [] } = .ok st)
  ∧ ((∀ t ∈ threads, ¬(t.threadId = thread.id)) →
      onDidChangeReviewThreads st openEditors
          { added := [], changed := [], removed := [thread] } = .ok st) := by
  constructor
  · intro hconv
    simp [onDidChangeReviewThreads,
          handleChangedThread_converged st thread threads hcache hconv]
  · intro hgone
    simp [onDidChangeReviewThreads,
          handleRemovedThread_gone st thread threads hcache hgone]

/-- Witness for C9 at the concrete converged state: replaying the `changed`
event for `rtOne` leaves the state untouched. -/
theorem claimC9_witness :
    onDidChangeReviewThreads convergedState [edHead]
        { added := [], changed := [rtOne], removed := [] } = .ok convergedState :=
  (claimC9_amended convergedState [edHead] rtOne [dtOne] (by decide)).1 (by decide)

end PRNode
